import Mathlib

/-!
Verification development for the LifeOS 0-21 frontend.

This file gives a shallow embedding of the client-side data-synchronization
core of the repository: the typed HTTP client wrappers of
`src/frontend/app/services/api.ts` and the task-list controller / checkin
submission flow of `src/frontend/app/components/DailyChecklist.tsx`.

Modelling conventions:
  - JavaScript numbers that hold integral values (ids, durations, joy
    scores) are modelled as `Int`.
  - The floating-point expression `Math.round((done / total) * 100)` is
    modelled twice. `completionPercentageFloat` is the faithful model: it
    evaluates the expression in IEEE binary64 (correctly rounded division
    and multiplication, round to nearest with ties to even, implemented
    over integer mantissa/exponent pairs), then applies `Math.round`
    (floor of x + 1/2, matching the ECMAScript ties-toward-positive rule
    on the non-negative range this expression stays in).
    `completionPercentage` is the exact-rational idealization using
    Mathlib's `round` on `ℚ`; the two agree except where the binary64
    value of `(done / total) * 100` falls on the other side of a
    half-integer than the exact value does (at 23 completed of 40 the
    program shows 57 while the idealization gives round (57.5) = 58).
  - A network interaction is driven by an environment: a list of
    `FetchOutcome` values consumed in order, one per `fetch` call issued by
    the code. `FetchOutcome.reject` models the fetch promise rejecting
    (network failure); an exhausted environment is also read as a
    rejection. A successful response whose body does not have the shape
    the caller reads from it is modelled as a network-level failure as
    well (`ApiError.networkError`), covering JSON parse rejections.
  - Each API function returns, besides its result, the ordered log of the
    requests it issued, so that claims about how many network calls happen
    and with what bodies are statable.
  - The controller handlers are `async` functions whose synchronous prefix
    runs up to the first `await`; they are embedded as pure functions of
    the pre-state and of the outcome the awaited call settles with, with
    the synchronous prefix split out as its own definition where a claim
    refers to it (`toggleOptimistic`, `onSubmitPending`).
-/

namespace LifeOS

/-- Pillar enumeration of `DailyTask.pillar` in `api.ts`. -/
inductive Pillar
  | Cognitive
  | Physical
  | Language
  | Character
  | Creativity
deriving DecidableEq

/-- Difficulty enumeration of `DailyTask.difficulty_level` in `api.ts`. -/
inductive Difficulty
  | easy
  | medium
  | hard
deriving DecidableEq

/-- The `DailyTask` record of `api.ts`. The optional
`completion_timestamp?: string | null` collapses to `Option String`
(`none` covers both `undefined` and `null`). -/
structure DailyTask where
  id : Int
  child_id : Int
  pillar : Pillar
  title : String
  description : String
  duration_minutes : Int
  difficulty_level : Difficulty
  completed : Bool
  completion_timestamp : Option String
  date_assigned : String
deriving DecidableEq

/-- The `SaveCheckinPayload` record of `api.ts`. -/
structure SaveCheckinPayload where
  child_id : Int
  joy_score : Int
  parent_notes : String
deriving DecidableEq

/-- Body of the `POST /profiles/` bootstrap request in
`ensureDefaultProfileExists` (`api.ts`). -/
structure ProfilePayload where
  name : String
  date_of_birth : String
  interests : List String
  parent_priority : String
deriving DecidableEq

/-- The fixed placeholder demographic defaults hard-coded in
`ensureDefaultProfileExists` (`api.ts`). -/
def defaultProfile : ProfilePayload :=
  { name := "Demo Child"
    date_of_birth := "2015-06-15"
    interests := ["learning", "sports"]
    parent_priority := "balanced development" }

/-- Parsed JSON body of an HTTP response, restricted to the shapes the
client reads. -/
inductive Payload
  | taskList (tasks : List DailyTask)
  | singleTask (task : DailyTask)
  | profileRecord
  | empty
deriving DecidableEq

/-- Read a response body as `DailyTask[]` (the unchecked cast performed by
`fetchDailyPlan`); any other shape is a modelling-level parse failure. -/
def Payload.asTaskList : Payload → Option (List DailyTask)
  | Payload.taskList tasks => some tasks
  | _ => none

/-- Read a response body as a single `DailyTask` (the unchecked cast
performed by `completeTask`). -/
def Payload.asTask : Payload → Option DailyTask
  | Payload.singleTask task => some task
  | _ => none

/-- An HTTP response: status code plus parsed body. -/
structure HttpResponse where
  status : Nat
  payload : Payload
deriving DecidableEq

/-- The WHATWG `Response.ok` flag: status in the range 200-299. -/
def HttpResponse.ok (r : HttpResponse) : Bool :=
  decide (200 ≤ r.status) && decide (r.status ≤ 299)

/-- Outcome of one `fetch` call: either the promise rejects (network
failure) or it resolves with a response. -/
inductive FetchOutcome
  | reject
  | response (r : HttpResponse)
deriving DecidableEq

/-- One request issued by the client, identified by endpoint and body. -/
inductive ApiRequest
  | getDailyPlan (childId : Int)
  | postProfile (payload : ProfilePayload)
  | postCompleteTask (task_id : Int) (completed : Bool)
  | postCheckin (childId : Int) (joy_score : Int) (parent_notes : String)
deriving DecidableEq

/-- Whether a request is the `POST /profiles/` bootstrap call. -/
def ApiRequest.isProfileCreate : ApiRequest → Bool
  | ApiRequest.postProfile _ => true
  | _ => false

/-- Whether a request is a `GET /daily-plan/{childId}` call. -/
def ApiRequest.isPlanFetch : ApiRequest → Bool
  | ApiRequest.getDailyPlan _ => true
  | _ => false

/-- Error taxonomy. The first three name the `Error` values thrown by the
three wrappers in `api.ts` (spec section 7 calls them `PlanUnavailable`,
`TaskUpdateFailed`, `CheckinSubmitFailed`); `networkError` models a
rejection arising below the wrapper (fetch rejection or JSON parse
failure). -/
inductive ApiError
  | planUnavailable
  | taskUpdateFailed
  | checkinSubmitFailed
  | networkError
deriving DecidableEq

/-- The `message` property of the thrown `Error`. For `networkError` the
runtime supplies an implementation message; "Failed to fetch" stands for
it. -/
def ApiError.message : ApiError → String
  | ApiError.planUnavailable => "Failed to fetch daily plan"
  | ApiError.taskUpdateFailed => "Failed to update task status"
  | ApiError.checkinSubmitFailed => "Failed to save joy score and parent notes"
  | ApiError.networkError => "Failed to fetch"

/-- Result of running one API wrapper: the value the promise settles with
and the ordered log of requests it issued. -/
structure ApiCall (α : Type) where
  result : Except ApiError α
  requests : List ApiRequest

/-- Consume the next fetch outcome from the environment; an exhausted
environment reads as a rejection. -/
def takeOutcome : List FetchOutcome → FetchOutcome × List FetchOutcome
  | [] => (FetchOutcome.reject, [])
  | o :: rest => (o, rest)

/-- Embedding of `ensureDefaultProfileExists` (`api.ts`): one
`POST /profiles/` with the fixed defaults; the response is awaited but its
status is never inspected, so only a fetch rejection propagates. Returns
the outcome, the remaining environment, and the request log. -/
def ensureDefaultProfileExists (env : List FetchOutcome) :
    Except ApiError Unit × List FetchOutcome × List ApiRequest :=
  match takeOutcome env with
  | (FetchOutcome.reject, env1) =>
      (Except.error ApiError.networkError, env1, [ApiRequest.postProfile defaultProfile])
  | (FetchOutcome.response _, env1) =>
      (Except.ok (), env1, [ApiRequest.postProfile defaultProfile])

/-- Embedding of `fetchDailyPlan` (`api.ts`): `GET /daily-plan/{childId}`;
on `ok`, return the parsed task list; on status 404, bootstrap the profile
once and retry the fetch exactly once; any other non-success status, and a
non-success retry, throw `Error('Failed to fetch daily plan')`
(`ApiError.planUnavailable`). -/
def fetchDailyPlan (childId : Int) (env : List FetchOutcome) : ApiCall (List DailyTask) :=
  match takeOutcome env with
  | (FetchOutcome.reject, _) =>
      ⟨Except.error ApiError.networkError, [ApiRequest.getDailyPlan childId]⟩
  | (FetchOutcome.response r, env1) =>
      if r.ok then
        match r.payload.asTaskList with
        | some tasks => ⟨Except.ok tasks, [ApiRequest.getDailyPlan childId]⟩
        | none => ⟨Except.error ApiError.networkError, [ApiRequest.getDailyPlan childId]⟩
      else if r.status = 404 then
        match ensureDefaultProfileExists env1 with
        | (Except.error e, _, preqs) =>
            ⟨Except.error e, ApiRequest.getDailyPlan childId :: preqs⟩
        | (Except.ok _, env2, preqs) =>
            match takeOutcome env2 with
            | (FetchOutcome.reject, _) =>
                ⟨Except.error ApiError.networkError,
                  ApiRequest.getDailyPlan childId :: preqs ++ [ApiRequest.getDailyPlan childId]⟩
            | (FetchOutcome.response retry, _) =>
                if retry.ok then
                  match retry.payload.asTaskList with
                  | some tasks =>
                      ⟨Except.ok tasks,
                        ApiRequest.getDailyPlan childId :: preqs ++ [ApiRequest.getDailyPlan childId]⟩
                  | none =>
                      ⟨Except.error ApiError.networkError,
                        ApiRequest.getDailyPlan childId :: preqs ++ [ApiRequest.getDailyPlan childId]⟩
                else
                  ⟨Except.error ApiError.planUnavailable,
                    ApiRequest.getDailyPlan childId :: preqs ++ [ApiRequest.getDailyPlan childId]⟩
      else
        ⟨Except.error ApiError.planUnavailable, [ApiRequest.getDailyPlan childId]⟩

/-- Embedding of `completeTask` (`api.ts`): one
`POST /tasks/complete_task` with `{ task_id, completed }`; non-success
throws `Error('Failed to update task status')`; no retry. -/
def completeTask (taskId : Int) (completed : Bool) (env : List FetchOutcome) :
    ApiCall DailyTask :=
  match takeOutcome env with
  | (FetchOutcome.reject, _) =>
      ⟨Except.error ApiError.networkError, [ApiRequest.postCompleteTask taskId completed]⟩
  | (FetchOutcome.response r, _) =>
      if r.ok then
        match r.payload.asTask with
        | some task => ⟨Except.ok task, [ApiRequest.postCompleteTask taskId completed]⟩
        | none => ⟨Except.error ApiError.networkError, [ApiRequest.postCompleteTask taskId completed]⟩
      else
        ⟨Except.error ApiError.taskUpdateFailed, [ApiRequest.postCompleteTask taskId completed]⟩

/-- Embedding of `saveDailyCheckin` (`api.ts`): one
`POST /daily-plan/{child_id}/checkin` whose body is
`{ joy_score, parent_notes }`; resolves with no payload on success;
non-success throws `Error('Failed to save joy score and parent notes')`. -/
def saveDailyCheckin (payload : SaveCheckinPayload) (env : List FetchOutcome) :
    ApiCall Unit :=
  match takeOutcome env with
  | (FetchOutcome.reject, _) =>
      ⟨Except.error ApiError.networkError,
        [ApiRequest.postCheckin payload.child_id payload.joy_score payload.parent_notes]⟩
  | (FetchOutcome.response r, _) =>
      if r.ok then
        ⟨Except.ok (),
          [ApiRequest.postCheckin payload.child_id payload.joy_score payload.parent_notes]⟩
      else
        ⟨Except.error ApiError.checkinSubmitFailed,
          [ApiRequest.postCheckin payload.child_id payload.joy_score payload.parent_notes]⟩

/-- The local React state of `DailyChecklist` (`DailyChecklist.tsx`):
`tasks`, `loading`, `error`, `joyScore`, `parentNotes`, `saving`,
`saveMessage`, in declaration order. -/
structure ChecklistState where
  tasks : List DailyTask
  loading : Bool
  error : Option String
  joyScore : Int
  parentNotes : String
  saving : Bool
  saveMessage : Option String
deriving DecidableEq

/-- The `useState` initial values of `DailyChecklist`. -/
def initialState : ChecklistState :=
  { tasks := []
    loading := true
    error := none
    joyScore := 3
    parentNotes := ""
    saving := false
    saveMessage := none }

/-- The `DEMO_TASKS` constant of `DailyChecklist.tsx`. Its
`date_assigned` fields are computed from the wall clock
(`new Date().toISOString().slice(0, 10)`), so the current date is a
parameter. -/
def DEMO_TASKS (today : String) : List DailyTask :=
  [ { id := 1001
      child_id := 1
      pillar := Pillar.Cognitive
      title := "Math Puzzle Sprint"
      description := "Solve 5 logic problems with a 15-minute timer."
      duration_minutes := 15
      difficulty_level := Difficulty.medium
      completed := true
      completion_timestamp := none
      date_assigned := today }
  , { id := 1002
      child_id := 1
      pillar := Pillar.Physical
      title := "Movement Circuit"
      description := "Complete 3 rounds of jump, squat, and stretch."
      duration_minutes := 20
      difficulty_level := Difficulty.easy
      completed := false
      completion_timestamp := none
      date_assigned := today }
  , { id := 1003
      child_id := 1
      pillar := Pillar.Language
      title := "Story Retell"
      description := "Read a short story and summarize it in 5 sentences."
      duration_minutes := 25
      difficulty_level := Difficulty.medium
      completed := false
      completion_timestamp := none
      date_assigned := today }
  , { id := 1004
      child_id := 1
      pillar := Pillar.Character
      title := "Gratitude Reflection"
      description := "Write down 3 things you are thankful for today."
      duration_minutes := 10
      difficulty_level := Difficulty.easy
      completed := true
      completion_timestamp := none
      date_assigned := today }
  , { id := 1005
      child_id := 1
      pillar := Pillar.Creativity
      title := "Sketch Challenge"
      description := "Draw your future city in under 20 minutes."
      duration_minutes := 20
      difficulty_level := Difficulty.hard
      completed := false
      completion_timestamp := none
      date_assigned := today } ]

/-- Embedding of the mount effect of `DailyChecklist` (the `useEffect`
body): await `fetchDailyPlan(childId)`; on success install the fetched
tasks and clear the error; on any rejection install `DEMO_TASKS` and show
the demo-data error message; in both cases `loading` ends up `false`. -/
def runMount (today : String) (fetchResult : Except ApiError (List DailyTask))
    (s : ChecklistState) : ChecklistState :=
  match fetchResult with
  | Except.ok dailyTasks =>
      { s with tasks := dailyTasks, error := none, loading := false }
  | Except.error _ =>
      { s with
          tasks := DEMO_TASKS today
          error := some "Live backend unavailable. Showing demo data for executive preview."
          loading := false }

/-- Exact-rational idealization of the `completionPercentage` memo of
`DailyChecklist`: `Math.round((done / tasks.length) * 100)` read over `ℚ`,
with `0` for an empty list. The program evaluates the expression in IEEE
binary64, which `completionPercentageFloat` models faithfully; this
idealization agrees with it except where the double value of the product
lands on the other side of a half-integer than the exact value (it does
agree at the demo collection, where 2 of 5 gives exactly 40). -/
def completionPercentage (tasks : List DailyTask) : Int :=
  if tasks.length = 0 then 0
  else
    round ((((tasks.filter (fun task => task.completed)).length : ℚ) / (tasks.length : ℚ)) * 100)

/-- Fuel-driven floor of log2 (structural recursion so the kernel can
evaluate it); `log2Fuel n n` is the floor of log2 n for n ≥ 1. -/
def log2Fuel : Nat → Nat → Nat
  | 0, _ => 0
  | fuel + 1, n => if n ≤ 1 then 0 else log2Fuel fuel (n / 2) + 1

/-- Floor of log2 of a positive natural. -/
def natLog2 (n : Nat) : Nat :=
  log2Fuel n n

/-- Nearest integer to n / d for naturals with d > 0, ties to even: the
IEEE rounding of a positive real to an integer grid. -/
def rnteNat (n d : Nat) : Nat :=
  let q := n / d
  let r := n % d
  if 2 * r < d then q
  else if d < 2 * r then q + 1
  else if q % 2 = 0 then q else q + 1

/-- Binade of the positive rational n / d (both at least 1): the e with
2 ^ e ≤ n / d < 2 ^ (e + 1). The bit-length estimate is off by at most
one, and the comparison fixes it without rational arithmetic. -/
def ratExp (n d : Nat) : Int :=
  let e0 : Int := (natLog2 n : Int) - (natLog2 d : Int)
  if 0 ≤ e0 then (if d * 2 ^ e0.toNat ≤ n then e0 else e0 - 1)
  else (if d ≤ n * 2 ^ (-e0).toNat then e0 else e0 - 1)

/-- The 53-bit significand of the binary64 nearest to the positive
rational n / d, whose binade is e: round n / d to the grid of spacing
2 ^ (e - 52), to nearest with ties to even. -/
def floatMantissa (n d : Nat) (e : Int) : Nat :=
  if 0 ≤ 52 - e then rnteNat (n * 2 ^ (52 - e).toNat) d
  else rnteNat n (d * 2 ^ (e - 52).toNat)

/-- The value m * 2 ^ (e - 52) of a binary64, as a numerator/denominator
pair of naturals. -/
def dyadicParts (m : Nat) (e : Int) : Nat × Nat :=
  if 0 ≤ e - 52 then (m * 2 ^ (e - 52).toNat, 1)
  else (m, 2 ^ (52 - e).toNat)

/-- `Math.round` of the non-negative rational n / d: the ECMAScript
function returns the integer closest to its argument with ties rounded
toward positive infinity, which on non-negative values is
floor (x + 1/2). -/
def jsRoundPos (n d : Nat) : Nat :=
  (2 * n + d) / (2 * d)

/-- IEEE binary64 evaluation of `Math.round((done / total) * 100)` for
0 ≤ done ≤ total, total ≥ 1, the arithmetic the program actually
performs: `done` and `total` are exactly representable integers, the
division and the multiplication by 100 are each correctly rounded to the
nearest double (ties to even), and `Math.round` is applied to the exact
value of the resulting double. The expression stays inside the normal
finite range, so neither overflow nor subnormals arise. -/
def mathRoundFloat (done total : Nat) : Nat :=
  let e1 := ratExp done total
  let m1 := floatMantissa done total e1
  let p1 := dyadicParts m1 e1
  let n2 := p1.1 * 100
  let e2 := ratExp n2 p1.2
  let m2 := floatMantissa n2 p1.2 e2
  let p2 := dyadicParts m2 e2
  jsRoundPos p2.1 p2.2

/-- Faithful embedding of the `completionPercentage` memo of
`DailyChecklist`: `Math.round((done / tasks.length) * 100)` evaluated in
IEEE binary64 as the program does, with `0` for an empty list. -/
def completionPercentageFloat (tasks : List DailyTask) : Int :=
  if tasks.length = 0 then 0
  else
    (mathRoundFloat ((tasks.filter (fun task => task.completed)).length) tasks.length : Int)

/-- The task-list update both the demo branch and the optimistic branch of
`onToggleTask` apply: set `completed` on every task whose id matches,
leave every other task alone. -/
def applyToggle (taskId : Int) (completed : Bool) (tasks : List DailyTask) : List DailyTask :=
  tasks.map (fun task => if task.id = taskId then { task with completed := completed } else task)

/-- Synchronous prefix of `onToggleTask` (`DailyChecklist.tsx`): the
`setTasks` that runs before any `await` — for demo rows it is the whole
effect, for real rows it is the optimistic update. -/
def toggleOptimistic (taskId : Int) (completed : Bool) (s : ChecklistState) : ChecklistState :=
  { s with tasks := applyToggle taskId completed s.tasks }

/-- Result of a toggle: the resulting controller state plus whether the
backend was contacted. -/
structure ToggleResult where
  state : ChecklistState
  networkCalled : Bool

/-- Continuation of `onToggleTask` after the synchronous prefix.
`previous` is the `const previous = tasks` snapshot captured on entry;
`s` is the state after the synchronous `setTasks`. Demo rows
(`taskId >= 1000`) return before any network call. On a successful
`completeTask` the server task replaces every task sharing its id; on a
rejection the whole collection is restored to `previous` and an error
message is surfaced. -/
def toggleSettle (taskId : Int) (callResult : Except ApiError DailyTask)
    (previous : List DailyTask) (s : ChecklistState) : ToggleResult :=
  if 1000 ≤ taskId then
    ⟨s, false⟩
  else
    match callResult with
    | Except.ok updated =>
        ⟨{ s with
            tasks := s.tasks.map (fun task => if task.id = updated.id then updated else task) },
          true⟩
    | Except.error _ =>
        ⟨{ s with
            tasks := previous
            error := some "Could not update task status. Please try again." },
          true⟩

/-- Embedding of `onToggleTask` (`DailyChecklist.tsx`): snapshot, apply the
synchronous update, then settle with the outcome the `completeTask` call
settles with. -/
def onToggleTask (taskId : Int) (completed : Bool) (callResult : Except ApiError DailyTask)
    (s : ChecklistState) : ToggleResult :=
  toggleSettle taskId callResult s.tasks (toggleOptimistic taskId completed s)

/-- Synchronous prefix of `onSubmit` (`DailyChecklist.tsx`): set `saving`,
clear the previous result message and error. -/
def onSubmitPending (s : ChecklistState) : ChecklistState :=
  { s with saving := true, saveMessage := none, error := none }

/-- Result of a checkin submission: the resulting controller state plus
the payload handed to `saveDailyCheckin`, `none` when the API client was
not invoked. -/
structure SubmitResult where
  state : ChecklistState
  payloadSent : Option SaveCheckinPayload

/-- Embedding of `onSubmit` (`DailyChecklist.tsx`). While any task id is
at least 1000 (demo data on screen) the handler acknowledges locally and
never calls the API. Otherwise it awaits
`saveDailyCheckin({child_id, joy_score, parent_notes})`; success sets the
success message, rejection sets the error message; the `finally` block
clears `saving` on every path. -/
def onSubmit (childId : Int) (callResult : Except ApiError Unit)
    (s : ChecklistState) : SubmitResult :=
  let s1 := onSubmitPending s
  if s1.tasks.any (fun task => 1000 ≤ task.id) then
    ⟨{ s1 with
        saveMessage := some "Demo check-in saved locally. Connect backend to persist."
        saving := false },
      none⟩
  else
    match callResult with
    | Except.ok _ =>
        ⟨{ s1 with
            saveMessage := some "Saved joy score and notes successfully."
            saving := false },
          some { child_id := childId, joy_score := s.joyScore, parent_notes := s.parentNotes }⟩
    | Except.error e =>
        ⟨{ s1 with error := some e.message, saving := false },
          some { child_id := childId, joy_score := s.joyScore, parent_notes := s.parentNotes }⟩

/-- The `disabled={saving}` attribute of the submit button in the
rendered view. -/
def saveButtonDisabled (s : ChecklistState) : Bool :=
  s.saving

/-- A concrete task used to instantiate universally quantified statements. -/
def sampleTask : DailyTask :=
  { id := 1
    child_id := 1
    pillar := Pillar.Cognitive
    title := "Math Puzzle Sprint"
    description := "Solve 5 logic problems with a 15-minute timer."
    duration_minutes := 15
    difficulty_level := Difficulty.medium
    completed := true
    completion_timestamp := none
    date_assigned := "2026-01-01" }

/-- The server-returned authoritative task used by the C5 witness: same id
as `sampleTask`, completed, with a server-computed completion timestamp. -/
def serverTask : DailyTask :=
  { sampleTask with completed := true, completion_timestamp := some "2026-01-01T12:00:00Z" }

/-- A concrete one-task controller state (the task not yet completed). -/
def oneTaskState : ChecklistState :=
  { initialState with tasks := [{ sampleTask with completed := false }] }

/-- A concrete controller state showing the demo tasks. -/
def demoState : ChecklistState :=
  { initialState with tasks := DEMO_TASKS "2026-01-01" }

/-- A 40-task collection with 23 tasks completed: the smallest class of
collection on which the program's IEEE evaluation of the completion
percentage disagrees with exact rounding. -/
def fortyTasks : List DailyTask :=
  List.replicate 23 sampleTask ++ List.replicate 17 { sampleTask with completed := false }

/-- Claim C1: for every task collection and every toggle of one task in it,
if the server call for that toggle fails, the controller restores the
entire collection to be identical by value to its pre-toggle snapshot
(every task, in the same order) and surfaces a user-visible error
message. (Real rows are those with `taskId < 1000`; only they reach the
server call.) -/
theorem C1_toggle_failure_rolls_back (taskId : Int) (completed : Bool) (e : ApiError)
    (s : ChecklistState) (hreal : taskId < 1000) :
    (onToggleTask taskId completed (Except.error e) s).state.tasks = s.tasks
    ∧ (onToggleTask taskId completed (Except.error e) s).state.error
        = some "Could not update task status. Please try again."
    ∧ (onToggleTask taskId completed (Except.error e) s).networkCalled = true := by
  have h : ¬ (1000 ≤ taskId) := by omega
  refine ⟨?_, ?_, ?_⟩ <;> simp [onToggleTask, toggleSettle, toggleOptimistic, h]

/-- Witness for C1 at a concrete toggle on a concrete state. -/
theorem C1_toggle_failure_rolls_back_witness :
    (1 : Int) < 1000
    ∧ (onToggleTask 1 true (Except.error ApiError.taskUpdateFailed)
          { initialState with tasks := [sampleTask] }).state.tasks
        = ({ initialState with tasks := [sampleTask] } : ChecklistState).tasks :=
  ⟨by decide,
    (C1_toggle_failure_rolls_back 1 true ApiError.taskUpdateFailed
      { initialState with tasks := [sampleTask] } (by decide)).1⟩

/-- Claim C3 is right about the intended formula but the code misses it:
at 40 tasks with 23 completed, the IEEE binary64 evaluation of
`Math.round((done / tasks.length) * 100)` that the program performs
displays 57 — the double value of the product is just below 57.5 — while
the claimed round(100 × completed_count / total_count) is round (57.5)
= 58 (as the exact-rational idealization also computes). This theorem
evaluates the code at that failing input. -/
theorem C3_float_rounding_divergence :
    completionPercentageFloat fortyTasks = 57
    ∧ round ((100 * ((fortyTasks.filter (fun task => task.completed)).length : ℚ))
        / (fortyTasks.length : ℚ)) = 58
    ∧ completionPercentage fortyTasks = 58
    ∧ completionPercentageFloat fortyTasks
        ≠ round ((100 * ((fortyTasks.filter (fun task => task.completed)).length : ℚ))
            / (fortyTasks.length : ℚ)) := by
  have hdone : (fortyTasks.filter (fun task => task.completed)).length = 23 := rfl
  have htotal : fortyTasks.length = 40 := rfl
  have hfloat : completionPercentageFloat fortyTasks = 57 := by decide
  have hspec : round ((100 * ((fortyTasks.filter (fun task => task.completed)).length : ℚ))
      / (fortyTasks.length : ℚ)) = 58 := by
    rw [hdone, htotal]
    norm_num [round_eq]
  refine ⟨hfloat, hspec, ?_, ?_⟩
  · show (if fortyTasks.length = 0 then 0
        else round ((((fortyTasks.filter (fun task => task.completed)).length : ℚ)
          / (fortyTasks.length : ℚ)) * 100)) = 58
    rw [hdone, htotal]
    norm_num [round_eq]
  · rw [hfloat, hspec]
    decide

/-- Claim C4: for every task in the collection and every requested
completion value, a user toggle immediately and synchronously sets that
task's completion flag to the requested value in local state, before and
regardless of any network outcome, leaving all other tasks unchanged.
The last conjunct records that `onToggleTask` factors through the
synchronous prefix `toggleOptimistic`, whatever the network outcome. -/
theorem C4_optimistic_update_synchronous (taskId : Int) (completed : Bool)
    (s : ChecklistState) (i : Nat) :
    (toggleOptimistic taskId completed s).tasks.length = s.tasks.length
    ∧ (toggleOptimistic taskId completed s).tasks[i]?
        = (s.tasks[i]?).map
            (fun old => if old.id = taskId then { old with completed := completed } else old)
    ∧ ∀ callResult, onToggleTask taskId completed callResult s
        = toggleSettle taskId callResult s.tasks (toggleOptimistic taskId completed s) := by
  refine ⟨?_, ?_, fun _ => rfl⟩
  · simp [toggleOptimistic, applyToggle]
  · simp [toggleOptimistic, applyToggle]

/-- Claim C10: for every checkin submission, the saving flag is set to
true before the API call (in the synchronous prefix) and restored to
false after the call completes, in both the success and the failure
outcome, and the submit trigger is disabled exactly when saving is true,
so a second submission cannot be started through the trigger while one is
outstanding. -/
theorem C10_saving_flag_discipline (childId : Int) (callResult : Except ApiError Unit)
    (s : ChecklistState) :
    (onSubmitPending s).saving = true
    ∧ (onSubmit childId callResult s).state.saving = false
    ∧ saveButtonDisabled s = s.saving
    ∧ saveButtonDisabled (onSubmitPending s) = true := by
  refine ⟨rfl, ?_, rfl, rfl⟩
  simp only [onSubmit]
  split
  · rfl
  · cases callResult <;> rfl

/-- Claim C5: for every toggle of a task to completed=true that receives
a matching successful server response (same id, completed flag true), the
toggled local task is replaced by the server-returned authoritative Task
— every task sharing the toggled id becomes exactly the server task, with
all server-returned fields adopted — and all other tasks are unchanged. -/
theorem C5_confirmed_adopts_server_task (taskId : Int) (u : DailyTask)
    (s : ChecklistState) (hreal : taskId < 1000) (hid : u.id = taskId)
    (hc : u.completed = true) :
    (onToggleTask taskId true (Except.ok u) s).state.tasks
        = s.tasks.map (fun old => if old.id = taskId then u else old)
    ∧ (∀ t ∈ (onToggleTask taskId true (Except.ok u) s).state.tasks,
        t.id = taskId → t = u ∧ t.completed = true)
    ∧ (onToggleTask taskId true (Except.ok u) s).networkCalled = true := by
  have h : ¬ (1000 ≤ taskId) := by omega
  have hmap : (onToggleTask taskId true (Except.ok u) s).state.tasks
      = s.tasks.map (fun old => if old.id = taskId then u else old) := by
    simp only [onToggleTask, toggleSettle, toggleOptimistic, applyToggle, if_neg h,
      List.map_map]
    refine congrArg (fun f => List.map f s.tasks) (funext fun t => ?_)
    by_cases ht : t.id = taskId
    · simp [Function.comp, ht, hid]
    · simp [Function.comp, ht, hid]
  refine ⟨hmap, ?_, by simp [onToggleTask, toggleSettle, h]⟩
  intro t ht hti
  rw [hmap] at ht
  rcases List.mem_map.1 ht with ⟨a, _, rfl⟩
  by_cases ha : a.id = taskId
  · simp [if_pos ha, hc]
  · exact absurd (by simpa [if_neg ha] using hti) ha

/-- Witness for C5: a concrete confirmed toggle adopting the server task. -/
theorem C5_confirmed_adopts_server_task_witness :
    (1 : Int) < 1000
    ∧ serverTask.id = 1
    ∧ serverTask.completed = true
    ∧ (onToggleTask 1 true (Except.ok serverTask) oneTaskState).state.tasks
        = oneTaskState.tasks.map (fun old => if old.id = 1 then serverTask else old) :=
  ⟨by decide, by decide, by decide,
    (C5_confirmed_adopts_server_task 1 serverTask oneTaskState
      (by decide) (by decide) (by decide)).1⟩

/-- Claim C8: if the initial plan fetch for the mounted child rejects (for
any reason), the controller does not leave the collection empty or fail:
it populates the collection with the five built-in demo tasks (of which
exactly two are completed, giving a displayed completion of 40%) and
shows a 'Live backend unavailable' error message. -/
theorem C8_mount_failure_demo_fallback (today : String) (e : ApiError) (s : ChecklistState) :
    (runMount today (Except.error e) s).tasks = DEMO_TASKS today
    ∧ (DEMO_TASKS today).length = 5
    ∧ ((DEMO_TASKS today).filter (fun task => task.completed)).length = 2
    ∧ completionPercentage (DEMO_TASKS today) = 40
    ∧ (runMount today (Except.error e) s).error
        = some "Live backend unavailable. Showing demo data for executive preview."
    ∧ (runMount today (Except.error e) s).loading = false := by
  refine ⟨rfl, rfl, rfl, ?_, rfl, rfl⟩
  show (if (DEMO_TASKS today).length = 0 then 0
      else round (((((DEMO_TASKS today).filter (fun task => task.completed)).length : ℚ)
        / ((DEMO_TASKS today).length : ℚ)) * 100)) = 40
  norm_num [DEMO_TASKS, List.filter, round_eq]

/-- Claim C9: in demo mode the network is never contacted: toggling any
task whose id is at least 1000 mutates only the local completion flag
(leaving every other field, every other task, and the error and message
state unchanged) and issues no network request and no rollback; and a
checkin submission made while any task in the collection has id at least
1000 sets a local demo success message without invoking the API client. -/
theorem C9_demo_mode_never_contacts_network (taskId : Int) (completed : Bool)
    (callResult : Except ApiError DailyTask) (s : ChecklistState) (i : Nat)
    (childId : Int) (checkinResult : Except ApiError Unit) (s2 : ChecklistState)
    (hdemo : 1000 ≤ taskId) (hdemo2 : s2.tasks.any (fun task => 1000 ≤ task.id) = true) :
    (onToggleTask taskId completed callResult s).networkCalled = false
    ∧ (onToggleTask taskId completed callResult s).state.tasks[i]?
        = (s.tasks[i]?).map
            (fun old => if old.id = taskId then { old with completed := completed } else old)
    ∧ (onToggleTask taskId completed callResult s).state.error = s.error
    ∧ (onToggleTask taskId completed callResult s).state.saveMessage = s.saveMessage
    ∧ (onSubmit childId checkinResult s2).payloadSent = none
    ∧ (onSubmit childId checkinResult s2).state.saveMessage
        = some "Demo check-in saved locally. Connect backend to persist." := by
  refine ⟨?_, ?_, ?_, ?_, ?_, ?_⟩ <;>
    simp [onToggleTask, toggleSettle, toggleOptimistic, applyToggle, hdemo,
      onSubmit, onSubmitPending, hdemo2]

/-- Witness for C9: a concrete demo toggle and a concrete demo checkin. -/
theorem C9_demo_mode_never_contacts_network_witness :
    (1000 : Int) ≤ 1001
    ∧ demoState.tasks.any (fun task => 1000 ≤ task.id) = true
    ∧ (onToggleTask 1001 true (Except.error ApiError.taskUpdateFailed)
        demoState).networkCalled = false :=
  ⟨by decide, by decide,
    (C9_demo_mode_never_contacts_network 1001 true
      (Except.error ApiError.taskUpdateFailed)
      demoState 0 1 (Except.ok ()) demoState
      (by decide) (by decide)).1⟩

/-- Every run of `fetchDailyPlan` issues one of exactly three request
logs: the plan fetch alone, plan fetch plus bootstrap, or plan fetch,
bootstrap and one retry. -/
theorem fetchDailyPlan_requests_shape (childId : Int) (env : List FetchOutcome) :
    (fetchDailyPlan childId env).requests = [ApiRequest.getDailyPlan childId]
    ∨ (fetchDailyPlan childId env).requests
        = [ApiRequest.getDailyPlan childId, ApiRequest.postProfile defaultProfile]
    ∨ (fetchDailyPlan childId env).requests
        = [ApiRequest.getDailyPlan childId, ApiRequest.postProfile defaultProfile,
            ApiRequest.getDailyPlan childId] := by
  unfold fetchDailyPlan ensureDefaultProfileExists takeOutcome
  rcases env with _ | ⟨_ | r, env1⟩
  · simp
  · simp
  by_cases hok : r.ok
  · cases hparse : r.payload.asTaskList <;> simp [hok, hparse]
  by_cases h404 : r.status = 404
  · rcases env1 with _ | ⟨_ | rp, env2⟩
    · simp [hok, h404]
    · simp [hok, h404]
    rcases env2 with _ | ⟨_ | r2, env3⟩
    · simp [hok, h404]
    · simp [hok, h404]
    by_cases hok2 : r2.ok
    · cases hparse : r2.payload.asTaskList <;> simp [hok, h404, hok2, hparse]
    · simp [hok, h404, hok2]
  · simp [hok, h404]

/-- Claim C2: for every childId, when the plan fetch returns a not-found
status, fetchPlan performs exactly one profile-creation request (with the
fixed placeholder demographic defaults) followed by exactly one retry of
the original fetch; if the retry also comes back non-success, or the
first response is any other non-success status, fetchPlan fails with the
`PlanUnavailable` error; and no run ever issues more than one
profile-creation request or more than two plan fetches. -/
theorem C2_fetch_plan_bootstrap_retry (childId : Int) (env : List FetchOutcome)
    (r1 rp r2 rother : HttpResponse) (rest : List FetchOutcome)
    (h404 : r1.status = 404) (hretry : r2.ok = false)
    (hother : rother.ok = false) (hnot404 : rother.status ≠ 404) :
    (fetchDailyPlan childId
        (FetchOutcome.response r1 :: FetchOutcome.response rp
          :: FetchOutcome.response r2 :: rest)).requests
      = [ApiRequest.getDailyPlan childId, ApiRequest.postProfile defaultProfile,
          ApiRequest.getDailyPlan childId]
    ∧ (fetchDailyPlan childId
        (FetchOutcome.response r1 :: FetchOutcome.response rp
          :: FetchOutcome.response r2 :: rest)).result
      = Except.error ApiError.planUnavailable
    ∧ (fetchDailyPlan childId (FetchOutcome.response rother :: rest)).result
      = Except.error ApiError.planUnavailable
    ∧ (fetchDailyPlan childId (FetchOutcome.response rother :: rest)).requests
      = [ApiRequest.getDailyPlan childId]
    ∧ ((fetchDailyPlan childId env).requests.filter ApiRequest.isProfileCreate).length ≤ 1
    ∧ ((fetchDailyPlan childId env).requests.filter ApiRequest.isPlanFetch).length ≤ 2 := by
  have h1 : r1.ok = false := by
    simp [HttpResponse.ok, h404]
  have hshape := fetchDailyPlan_requests_shape childId env
  refine ⟨?_, ?_, ?_, ?_, ?_, ?_⟩
  · simp [fetchDailyPlan, takeOutcome, ensureDefaultProfileExists, h1, h404, hretry]
  · simp [fetchDailyPlan, takeOutcome, ensureDefaultProfileExists, h1, h404, hretry]
  · simp [fetchDailyPlan, takeOutcome, hother, hnot404]
  · simp [fetchDailyPlan, takeOutcome, hother, hnot404]
  · rcases hshape with h | h | h <;>
      simp [h, ApiRequest.isProfileCreate, ApiRequest.isPlanFetch]
  · rcases hshape with h | h | h <;>
      simp [h, ApiRequest.isProfileCreate, ApiRequest.isPlanFetch]

/-- Witness for C2: childId 1, a 404, an acknowledged bootstrap, and a
second 404 on the retry. -/
theorem C2_fetch_plan_bootstrap_retry_witness :
    (HttpResponse.mk 404 Payload.empty).status = 404
    ∧ (HttpResponse.mk 404 Payload.empty).ok = false
    ∧ (HttpResponse.mk 500 Payload.empty).ok = false
    ∧ (HttpResponse.mk 500 Payload.empty).status ≠ 404
    ∧ (fetchDailyPlan 1
        [FetchOutcome.response (HttpResponse.mk 404 Payload.empty),
          FetchOutcome.response (HttpResponse.mk 200 Payload.profileRecord),
          FetchOutcome.response (HttpResponse.mk 404 Payload.empty)]).requests
      = [ApiRequest.getDailyPlan 1, ApiRequest.postProfile defaultProfile,
          ApiRequest.getDailyPlan 1] :=
  ⟨by decide, by decide, by decide, by decide,
    (C2_fetch_plan_bootstrap_retry 1 []
      (HttpResponse.mk 404 Payload.empty) (HttpResponse.mk 200 Payload.profileRecord)
      (HttpResponse.mk 404 Payload.empty) (HttpResponse.mk 500 Payload.empty) []
      (by decide) (by decide) (by decide) (by decide)).1⟩

/-- Claim C6: a checkin submission with joy score 4 and notes "great day"
issues exactly one POST whose body is joy_score 4, parent_notes
"great day"; on a success response the flow reports a success message and
no error message, and on a failure response it reports an error message
and no success message. (The hypothesis that no task id reaches 1000
rules out demo mode, in which the API is never invoked.) -/
theorem C6_checkin_submission_roundtrip (childId : Int) (s : ChecklistState)
    (env : List FetchOutcome) (e : ApiError)
    (hjoy : s.joyScore = 4) (hnotes : s.parentNotes = "great day")
    (hreal : s.tasks.any (fun task => 1000 ≤ task.id) = false) :
    (saveDailyCheckin
        { child_id := childId, joy_score := 4, parent_notes := "great day" } env).requests
      = [ApiRequest.postCheckin childId 4 "great day"]
    ∧ (onSubmit childId (Except.ok ()) s).payloadSent
        = some { child_id := childId, joy_score := 4, parent_notes := "great day" }
    ∧ (onSubmit childId (Except.ok ()) s).state.saveMessage
        = some "Saved joy score and notes successfully."
    ∧ (onSubmit childId (Except.ok ()) s).state.error = none
    ∧ (onSubmit childId (Except.error e) s).payloadSent
        = some { child_id := childId, joy_score := 4, parent_notes := "great day" }
    ∧ (onSubmit childId (Except.error e) s).state.error = some e.message
    ∧ (onSubmit childId (Except.error e) s).state.saveMessage = none := by
  refine ⟨?_, ?_, ?_, ?_, ?_, ?_, ?_⟩
  · unfold saveDailyCheckin takeOutcome
    rcases env with _ | ⟨_ | r, rest⟩
    · rfl
    · rfl
    · by_cases hok : r.ok <;> simp [hok]
  all_goals simp [onSubmit, onSubmitPending, hreal, hjoy, hnotes]

/-- Witness for C6 on a concrete state with joy score 4 and the notes
"great day". -/
theorem C6_checkin_submission_roundtrip_witness :
    ({ initialState with joyScore := 4, parentNotes := "great day" } : ChecklistState).joyScore
      = 4
    ∧ ({ initialState with joyScore := 4, parentNotes := "great day" } : ChecklistState).parentNotes
      = "great day"
    ∧ ({ initialState with joyScore := 4, parentNotes := "great day" } : ChecklistState).tasks.any
        (fun task => 1000 ≤ task.id) = false
    ∧ (saveDailyCheckin { child_id := 1, joy_score := 4, parent_notes := "great day" }
        [FetchOutcome.response (HttpResponse.mk 200 Payload.empty)]).requests
      = [ApiRequest.postCheckin 1 4 "great day"] :=
  ⟨by decide, by decide, by decide,
    (C6_checkin_submission_roundtrip 1
      { initialState with joyScore := 4, parentNotes := "great day" }
      [FetchOutcome.response (HttpResponse.mk 200 Payload.empty)]
      ApiError.checkinSubmitFailed
      (by decide) (by decide) (by decide)).1⟩

/-- Counterexample to claim C7 as stated: on a 404 first response,
`fetchDailyPlan` performs three network calls, not exactly one. -/
theorem C7_counterexample_three_calls :
    (fetchDailyPlan 1
        [FetchOutcome.response (HttpResponse.mk 404 Payload.empty),
          FetchOutcome.response (HttpResponse.mk 200 Payload.profileRecord),
          FetchOutcome.response (HttpResponse.mk 404 Payload.empty)]).requests.length = 3
    ∧ ¬ (fetchDailyPlan 1
        [FetchOutcome.response (HttpResponse.mk 404 Payload.empty),
          FetchOutcome.response (HttpResponse.mk 200 Payload.profileRecord),
          FetchOutcome.response (HttpResponse.mk 404 Payload.empty)]).requests.length = 1 := by
  refine ⟨?_, ?_⟩ <;> decide

/-- Claim C7 as amended: `completeTask` and `saveDailyCheckin` perform
exactly one network call per invocation; `fetchDailyPlan` performs
exactly one except in the not-found recovery path, and never more than
three in total (all three functions are pure in their arguments and the
fetch environment, so they cache nothing and mutate no local state). -/
theorem C7_amended_single_shot_calls (taskId childId : Int) (completed : Bool)
    (payload : SaveCheckinPayload) (env : List FetchOutcome) (r : HttpResponse)
    (hnotfound : r.status ≠ 404) :
    (completeTask taskId completed env).requests.length = 1
    ∧ (saveDailyCheckin payload env).requests.length = 1
    ∧ (fetchDailyPlan childId env).requests.length ≤ 3
    ∧ (fetchDailyPlan childId (FetchOutcome.reject :: env)).requests.length = 1
    ∧ (fetchDailyPlan childId (FetchOutcome.response r :: env)).requests.length = 1 := by
  refine ⟨?_, ?_, ?_, rfl, ?_⟩
  · unfold completeTask takeOutcome
    rcases env with _ | ⟨_ | r0, rest⟩
    · rfl
    · rfl
    · by_cases hok : r0.ok
      · cases hparse : r0.payload.asTask <;> simp [hok, hparse]
      · simp [hok]
  · unfold saveDailyCheckin takeOutcome
    rcases env with _ | ⟨_ | r0, rest⟩
    · rfl
    · rfl
    · by_cases hok : r0.ok <;> simp [hok]
  · rcases fetchDailyPlan_requests_shape childId env with h | h | h <;> simp [h]
  · unfold fetchDailyPlan takeOutcome
    by_cases hok : r.ok
    · cases hparse : r.payload.asTaskList <;> simp [hok, hparse]
    · simp [hok, hnotfound]

/-- Witness for the amended C7 at concrete inputs. -/
theorem C7_amended_single_shot_calls_witness :
    (HttpResponse.mk 500 Payload.empty).status ≠ 404
    ∧ (completeTask 1 true []).requests.length = 1 :=
  ⟨by decide,
    (C7_amended_single_shot_calls 1 1 true
      { child_id := 1, joy_score := 4, parent_notes := "great day" } []
      (HttpResponse.mk 500 Payload.empty) (by decide)).1⟩

end LifeOS
